import Mathlib

/-!
Verification of the simulation core of a three.js first-person game:
fixed-timestep physics stepping, seagull flight/hit state machine,
projectile lifetime and raycast bounce resolution, and the win counter.

Each model definition is a shallow embedding of the corresponding
TypeScript source (src/src/physics/PhysicsWorld.ts, src/src/objects/Seagull.ts,
src/src/scenes/ExampleScene.ts, src/src/FirstPersonControls.ts).
Real-valued quantities of the source (JS numbers) are modelled as exact
rationals where only ring/field operations and comparisons occur, and as
real numbers where square roots (vector length / normalization) occur.
Decimal constants of the source are written as the equal fractions
(0.05 = 1/20, 0.6 = 3/5, 0.2 = 1/5, 9.8 = 98/10, 0.95 = 19/20,
0.001 = 1/1000, 0.1 = 1/10, 0.5 = 1/2, 0.3 = 3/10).
-/

/-! ## PhysicsWorld (src/src/physics/PhysicsWorld.ts) -/

namespace Phys

/-- `PhysicsWorld.timeStep = 1 / 60` (seconds). -/
def timeStep : ℚ := 1 / 60

/-- The `maxSteps = 3` cap of `PhysicsWorld.update`. -/
def maxSteps : ℕ := 3

/-- The `while (accumulator >= timeStep && steps < maxSteps)` loop of
`PhysicsWorld.update`, with the remaining step budget (`maxSteps - steps`)
as structural fuel.  Returns the final accumulator and the number of
`world.step(timeStep)` calls performed. -/
def stepLoop : ℕ → ℚ → ℚ × ℕ
  | 0, acc => (acc, 0)
  | n + 1, acc =>
    if timeStep ≤ acc then
      let r := stepLoop n (acc - timeStep)
      (r.1, r.2 + 1)
    else
      (acc, 0)

/-- `PhysicsWorld.update(deltaTime)`: add `deltaTime` to the accumulator,
then run the capped fixed-step loop.  Returns the accumulator value left
for the next call together with the number of steps performed. -/
def update (accumulator deltaTime : ℚ) : ℚ × ℕ :=
  stepLoop maxSteps (accumulator + deltaTime)

end Phys

/-! ## three.js `Vector3` operations used by the core -/

/-- A three.js `Vector3` with exact real components. -/
structure Vec3 where
  x : ℝ
  y : ℝ
  z : ℝ

namespace Vec3

noncomputable section

/-- `a.sub(b)` componentwise. -/
def sub (a b : Vec3) : Vec3 := ⟨a.x - b.x, a.y - b.y, a.z - b.z⟩

/-- `a.add(b)` componentwise. -/
def add (a b : Vec3) : Vec3 := ⟨a.x + b.x, a.y + b.y, a.z + b.z⟩

/-- `v.multiplyScalar(c)` / `addScaledVector` building block. -/
def smul (c : ℝ) (v : Vec3) : Vec3 := ⟨c * v.x, c * v.y, c * v.z⟩

/-- `a.dot(b)`. -/
def dot (a b : Vec3) : ℝ := a.x * b.x + a.y * b.y + a.z * b.z

/-- `v.lengthSq()`. -/
def lengthSq (v : Vec3) : ℝ := v.x * v.x + v.y * v.y + v.z * v.z

/-- `v.length()`. -/
def length (v : Vec3) : ℝ := Real.sqrt (lengthSq v)

/-- `v.normalize()`; three.js divides by `this.length() || 1`, so the zero
vector is left unchanged. -/
def normalize (v : Vec3) : Vec3 :=
  let l := length v
  let d := if l = 0 then 1 else l
  ⟨v.x / d, v.y / d, v.z / d⟩

/-- `v.reflect(n)` = `v - 2 * v.dot(n) * n` (three.js `Vector3.reflect`). -/
def reflect (v n : Vec3) : Vec3 := sub v (smul (2 * dot v n) n)

end

end Vec3

/-- JS `Math.atan2` on exact reals. -/
noncomputable def atan2 (y x : ℝ) : ℝ :=
  if 0 < x then Real.arctan (y / x)
  else if x < 0 then
    if 0 ≤ y then Real.arctan (y / x) + Real.pi else Real.arctan (y / x) - Real.pi
  else
    if 0 < y then Real.pi / 2 else if y < 0 then -(Real.pi / 2) else 0

/-! ## Seagull (src/src/objects/Seagull.ts, class `Seagull`) -/

namespace Seagull

/-- A three.js `Euler` rotation (the model's `rotation.x/y/z`). -/
structure Euler where
  x : ℝ
  y : ℝ
  z : ℝ

/-- Observable state of one `Seagull` instance.  `modelPresent` is
`this.model !== null`, `inScene` is `this.model` having a parent,
`hasCallback` is `this.onHitCallback !== null`.  The three counters count
the externally observable effects: onHit-callback invocations, removals of
the model from its parent, and resource-releasing `dispose()` runs. -/
structure State where
  modelPresent : Bool
  modelLoaded : Bool
  inScene : Bool
  position : Vec3
  rotation : Euler
  progress : ℝ
  speed : ℝ
  isHit : Bool
  hasCallback : Bool
  callbackRuns : ℕ
  detachments : ℕ
  disposals : ℕ

/-- `Seagull.hit()`: `if (this.isHit) return;` then mark hit, invoke the
onHit callback if present, remove the model from its parent if attached,
and release resources via `dispose()`. -/
def hit (s : State) : State :=
  if s.isHit then s
  else
    { s with
      isHit := true
      callbackRuns := s.callbackRuns + (if s.hasCallback then 1 else 0)
      inScene := false
      detachments := s.detachments + (if s.inScene then 1 else 0)
      disposals := s.disposals + 1 }

/-- `lookAheadValue = 0.05` in `Seagull.update`. -/
noncomputable def lookAheadValue : ℝ := 1 / 20

/-- JS `%` with divisor `1`, as used in `(progress + lookAheadValue) % 1`
(remainder carries the sign of the dividend). -/
noncomputable def jsMod1 (x : ℝ) : ℝ :=
  x - (if 0 ≤ x then (⌊x⌋ : ℝ) else (⌈x⌉ : ℝ))

/-- The progress advance of `Seagull.update`:
`this.progress += this.speed * delta; if (this.progress > 1) this.progress -= 1`. -/
noncomputable def newProgress (delta : ℝ) (s : State) : ℝ :=
  let p := s.progress + s.speed * delta
  if 1 < p then p - 1 else p

/-- The displacement `nextPosition - currentPosition` computed in
`Seagull.update`, with `this.path.getPoint` passed in as `path`. -/
noncomputable def aheadDisplacement (path : ℝ → Vec3) (delta : ℝ) (s : State) : Vec3 :=
  Vec3.sub (path (jsMod1 (newProgress delta s + lookAheadValue))) (path (newProgress delta s))

/-- The rotation assigned when the orientation guard passes: pitch
`direction.y * 0.5`, heading `atan2(direction.x, direction.z)`, bank
`direction.x * -0.3`. -/
noncomputable def orientationFor (direction : Vec3) : Euler :=
  ⟨direction.y * (1 / 2), atan2 direction.x direction.z, direction.x * (-(3 / 10))⟩

/-- `Seagull.update()`, parameterized by the path sampler
(`this.path.getPoint`) and the clock delta.  Mirrors the source: early
return when the model is absent or not loaded; advance progress; copy the
current path sample into the position; and update the rotation only when
the (normalized) direction has `length() > 0.001`. -/
noncomputable def update (path : ℝ → Vec3) (delta : ℝ) (s : State) : State :=
  if s.modelPresent = false ∨ s.modelLoaded = false then s
  else
    let progress := newProgress delta s
    let currentPosition := path progress
    let direction := Vec3.normalize (aheadDisplacement path delta s)
    let s1 := { s with progress := progress, position := currentPosition }
    if 1 / 1000 < Vec3.length direction then
      { s1 with rotation := orientationFor direction }
    else s1

end Seagull

/-! ## Ball thrown by FirstPersonControls (src/src/FirstPersonControls.ts) -/

namespace Controls

/-- `BOUNCE_FACTOR = 0.6`. -/
noncomputable def bounceFactor : ℝ := 3 / 5

/-- A three.js `Quaternion` (the intersected object's `quaternion`). -/
structure Quat where
  x : ℝ
  y : ℝ
  z : ℝ
  w : ℝ

/-- three.js `Vector3.applyQuaternion`:
`t = 2 * cross(q.xyz, v)`, `v' = v + q.w * t + cross(q.xyz, t)`. -/
noncomputable def applyQuaternion (q : Quat) (v : Vec3) : Vec3 :=
  let tx := 2 * (q.y * v.z - q.z * v.y)
  let ty := 2 * (q.z * v.x - q.x * v.z)
  let tz := 2 * (q.x * v.y - q.y * v.x)
  ⟨v.x + q.w * tx + q.y * tz - q.z * ty,
   v.y + q.w * ty + q.z * tx - q.x * tz,
   v.z + q.w * tz + q.x * ty - q.y * tx⟩

/-- A thrown ball mesh with its `velocity` custom property. -/
structure BallM where
  position : Vec3
  velocity : Vec3

/-- The nearest raycast intersection data consumed by the per-ball loop of
`FirstPersonControls.update`: `intersections[0].distance`, `.point`, the
optional `face.normal`, the intersected `object.quaternion`, and whether
`Seagull.isSeagull(collision.object)` holds. -/
structure RayHit where
  distance : ℝ
  point : Vec3
  faceNormal : Option Vec3
  objectQuaternion : Quat
  objectIsSeagull : Bool

/-- Outcome of one per-ball tick: either the ball was removed because it
hit a seagull, or it continues with a new position/velocity. -/
inductive TickResult where
  | removedHitSeagull
  | moved (ball : BallM)

/-- The no-collision integration path of the per-ball loop:
`position += velocity * delta`, `velocity.y -= 9.8 * delta`, floor clamp at
`y = 0` with reflection `velocity.y = -velocity.y * 0.6`, horizontal
damping by `0.95`, sub-bounce squelch (`|velocity.y| < 0.5` zeroes it),
and rest-state squelch (`velocity.lengthSq() < 0.1` zeroes the velocity). -/
noncomputable def integrate (delta : ℝ) (b : BallM) : BallM :=
  let pos1 := Vec3.add b.position (Vec3.smul delta b.velocity)
  let v1 : Vec3 := ⟨b.velocity.x, b.velocity.y - 98 / 10 * delta, b.velocity.z⟩
  if pos1.y < 0 then
    let vy := -v1.y * bounceFactor
    let vy2 := if |vy| < 1 / 2 then 0 else vy
    let v2 : Vec3 := ⟨v1.x * (19 / 20), vy2, v1.z * (19 / 20)⟩
    let v3 := if Vec3.lengthSq v2 < 1 / 10 then (⟨0, 0, 0⟩ : Vec3) else v2
    { position := ⟨pos1.x, 0, pos1.z⟩, velocity := v3 }
  else
    let v3 := if Vec3.lengthSq v1 < 1 / 10 then (⟨0, 0, 0⟩ : Vec3) else v1
    { position := pos1, velocity := v3 }

/-- One tick of the per-ball raycast hit-resolution loop of
`FirstPersonControls.update`, given the nearest intersection reported by
the raycaster (`none` when there is none).  A hit within the travel
distance `velocity.length() * delta` either removes the ball (seagull), or
— when a face normal is available — reflects the velocity about the
world-space normal scaled by `BOUNCE_FACTOR` and repositions the ball at
the impact point offset `0.2` along the normal, skipping the normal
integration this tick (`continue`). -/
noncomputable def ballTick (delta : ℝ) (rayHit : Option RayHit) (b : BallM) : TickResult :=
  let moveDistance := Vec3.length b.velocity * delta
  match rayHit with
  | some h =>
    if h.distance < moveDistance then
      if h.objectIsSeagull then TickResult.removedHitSeagull
      else
        match h.faceNormal with
        | some n =>
          let normalWorld := applyQuaternion h.objectQuaternion n
          TickResult.moved
            { position := Vec3.add h.point (Vec3.smul (1 / 5) normalWorld)
              velocity := Vec3.smul bounceFactor (Vec3.reflect b.velocity normalWorld) }
        | none => TickResult.moved (integrate delta b)
    else TickResult.moved (integrate delta b)
  | none => TickResult.moved (integrate delta b)

end Controls

/-! ## Physics-backed Ball (class `Ball`, second part of src/src/objects/Seagull.ts)
    and the ball cleanup loop of `ExampleScene.update` -/

namespace Ball

/-- A `CANNON.Vec3` / mesh position, copied componentwise only. -/
structure V3 where
  x : ℚ
  y : ℚ
  z : ℚ
deriving DecidableEq

/-- A quaternion, copied componentwise only. -/
structure Quat4 where
  x : ℚ
  y : ℚ
  z : ℚ
  w : ℚ
deriving DecidableEq

/-- `LIFETIME = 5000` milliseconds. -/
def lifetime : ℤ := 5000

/-- Observable state of one physics-backed `Ball`: creation timestamp
(`Date.now()` at construction), the `disposed` flag, the mesh transform
synced from the physics body, membership flags for the render scene and
the physics world (maintained by `ExampleScene`), the collide-listener
registration, and a counter of resource-releasing `dispose()` runs. -/
structure State where
  creationTime : ℤ
  disposed : Bool
  meshPosition : V3
  meshQuaternion : Quat4
  bodyPosition : V3
  bodyQuaternion : Quat4
  meshInScene : Bool
  bodyInWorld : Bool
  listenerAttached : Bool
  disposeCount : ℕ
deriving DecidableEq

/-- `Ball.update()`: returns `false` immediately when disposed; otherwise
copies the body position/quaternion onto the mesh and returns
`Date.now() - creationTime < LIFETIME`. -/
def update (now : ℤ) (b : State) : Bool × State :=
  if b.disposed then (false, b)
  else
    let b1 := { b with meshPosition := b.bodyPosition, meshQuaternion := b.bodyQuaternion }
    (decide (now - b.creationTime < lifetime), b1)

/-- `Ball.dispose()`: `if (this.disposed) return;` then removes the collide
listener, releases geometry and material, and sets `disposed = true`. -/
def dispose (b : State) : State :=
  if b.disposed then b
  else { b with listenerAttached := false, disposed := true, disposeCount := b.disposeCount + 1 }

end Ball

namespace Scene

/-- The ball cleanup loop of `ExampleScene.update`: for each tracked ball,
call `ball.update()`; if it reports dead, remove its mesh from the scene,
remove its body from the physics world, dispose it, and splice it out of
the tracking list.  Returns (surviving balls, removed-and-disposed balls).
The source iterates the array backwards so that `splice` is safe; the
per-ball effect is identical. -/
def cullStep (now : ℤ) : List Ball.State → List Ball.State × List Ball.State
  | [] => ([], [])
  | b :: rest =>
    let u := Ball.update now b
    let r := cullStep now rest
    if u.1 then (u.2 :: r.1, r.2)
    else (r.1, Ball.dispose { u.2 with meshInScene := false, bodyInWorld := false } :: r.2)

end Scene

/-! ## Win counter (src/src/scenes/ExampleScene.ts) -/

namespace Game

/-- `NUM_SEAGULLS = 5`. -/
def numSeagulls : ℕ := 5

/-- The hit-counting state of `ExampleScene` combined with the per-seagull
`isHit` guards: `hitFlags i` is seagull `i`'s `isHit`, `remainingSeagulls`
the scene counter, and `winShowCount` the number of `showWinScreen()`
calls. -/
structure State where
  hitFlags : Fin 5 → Bool
  remainingSeagulls : ℤ
  winScreenShown : Bool
  winShowCount : ℕ

/-- The state after `initSeagulls()`: `remainingSeagulls = NUM_SEAGULLS`,
five un-hit seagulls, win screen hidden. -/
def init : State :=
  { hitFlags := fun _ => false
    remainingSeagulls := (numSeagulls : ℤ)
    winScreenShown := false
    winShowCount := 0 }

/-- `ExampleScene.handleSeagullHit()`: decrement the counter and show the
win screen when it reaches `<= 0`. -/
def handleSeagullHit (g : State) : State :=
  let remaining := g.remainingSeagulls - 1
  { g with
    remainingSeagulls := remaining
    winScreenShown := if remaining ≤ 0 then true else g.winScreenShown
    winShowCount := if remaining ≤ 0 then g.winShowCount + 1 else g.winShowCount }

/-- A hit notification for seagull `i`: `Seagull.hit()`'s
`if (this.isHit) return;` guard means the scene callback
(`handleSeagullHit`) runs only on the first notification per seagull. -/
def notifyHit (i : Fin 5) (g : State) : State :=
  if g.hitFlags i then g
  else handleSeagullHit { g with hitFlags := Function.update g.hitFlags i true }

/-- Process a sequence of hit notifications in order. -/
def processHits : List (Fin 5) → State → State
  | [], g => g
  | e :: es, g => processHits es (notifyHit e g)

/-- Number of distinct seagulls hit so far. -/
def hitCount (g : State) : ℕ :=
  (Finset.univ.filter fun i => g.hitFlags i = true).card

end Game

/-! ## Flight path creation (src/src/objects/Seagull.ts, `createRandomPath`) -/

namespace Flight

/-- A control point, with exact rational components. -/
structure P3 where
  x : ℚ
  y : ℚ
  z : ℚ
deriving DecidableEq

/-- The `Box3` bounds field of `Seagull` (`bounds.min`, `bounds.max`). -/
structure Bounds where
  min : P3
  max : P3

/-- The default bounds set at construction:
`new Box3(new Vector3(-100, 0, -100), new Vector3(100, 50, 100))`. -/
def defaultBounds : Bounds := ⟨⟨-100, 0, -100⟩, ⟨100, 50, 100⟩⟩

/-- The bounds `ExampleScene.initSeagulls` passes to `setBounds`. -/
def sceneBounds : Bounds := ⟨⟨-50, 15, -50⟩, ⟨50, 35, 50⟩⟩

/-- The control-point list and `closed` flag of the
`CatmullRomCurve3(points, true)` built by `createRandomPath`. -/
structure FlightPath where
  points : List P3
  closed : Bool
deriving DecidableEq

/-- `Seagull.createRandomPath()`, with the successive `Math.random()`
draws supplied as the stream `rand` (each in `[0, 1)`):
`numPoints = 5 + floor(rand * 3)`; each point has
`x = min.x + rand * (max.x - min.x)`, `y = min.y + 5 + rand * 15`,
`z = min.z + rand * (max.z - min.z)`; the curve is closed (looping). -/
def createRandomPath (bounds : Bounds) (rand : ℕ → ℚ) : FlightPath :=
  let numPoints : ℕ := 5 + (⌊rand 0 * 3⌋).toNat
  { points :=
      (List.range numPoints).map fun i =>
        { x := bounds.min.x + rand (3 * i + 1) * (bounds.max.x - bounds.min.x)
          y := bounds.min.y + 5 + rand (3 * i + 2) * 15
          z := bounds.min.z + rand (3 * i + 3) * (bounds.max.z - bounds.min.z) }
    closed := true }

/-- Membership of a point in the axis-aligned bounds. -/
def inBounds (bounds : Bounds) (p : P3) : Bool :=
  decide (bounds.min.x ≤ p.x ∧ p.x ≤ bounds.max.x ∧
          bounds.min.y ≤ p.y ∧ p.y ≤ bounds.max.y ∧
          bounds.min.z ≤ p.z ∧ p.z ≤ bounds.max.z)

end Flight

/-! # Theorems -/

/-! ## PhysicsWorld helper lemmas -/

theorem Phys.stepLoop_steps_le (n : ℕ) (acc : ℚ) : (Phys.stepLoop n acc).2 ≤ n := by
  induction n generalizing acc with
  | zero => simp [Phys.stepLoop]
  | succ n ih =>
    simp only [Phys.stepLoop]
    split
    · simpa using Nat.succ_le_succ (ih (acc - Phys.timeStep))
    · simp

theorem Phys.stepLoop_acc (n : ℕ) (acc : ℚ) :
    (Phys.stepLoop n acc).1 = acc - Phys.timeStep * (Phys.stepLoop n acc).2 ∧
    ((Phys.stepLoop n acc).2 = n ∨ (Phys.stepLoop n acc).1 < Phys.timeStep) := by
  induction n generalizing acc with
  | zero => simp [Phys.stepLoop]
  | succ n ih =>
    simp only [Phys.stepLoop]
    split
    · rcases ih (acc - Phys.timeStep) with ⟨h1, h2⟩
      constructor
      · push_cast
        rw [h1]; ring
      · rcases h2 with h2 | h2
        · exact Or.inl (by rw [h2])
        · exact Or.inr h2
    · rename_i h
      exact ⟨by simp, Or.inr (lt_of_not_le h)⟩

/-- Claim C4: `PhysicsWorld.update(dt)`, for any `dt` (in particular any
`dt >= 0`) and any prior accumulator value, performs at most 3 fixed-size
(1/60 s) integration steps; the loop is fuel-bounded by the step cap, so
it always terminates. -/
theorem physics_update_at_most_three_steps (accumulator deltaTime : ℚ) :
    (Phys.update accumulator deltaTime).2 ≤ 3 :=
  Phys.stepLoop_steps_le Phys.maxSteps (accumulator + deltaTime)

/-- Counterexample to claim C5: calling `update` with accumulator `0` and
`dt = 1` second performs the 3 capped steps and retains `19/20` seconds in
the accumulator — the excess beyond the cap is NOT discarded, and the
retained remainder is not smaller than one fixed timestep. -/
theorem physics_update_retains_excess :
    (Phys.update 0 1).1 = 19 / 20 ∧ ¬ (Phys.update 0 1).1 < Phys.timeStep := by
  constructor <;> norm_num [Phys.update, Phys.maxSteps, Phys.stepLoop, Phys.timeStep]

/-- Claim C5, amended: after `update(dt)` the accumulator retains the whole
unconsumed time `acc + dt - timeStep * steps` — excess beyond the 3-step
cap is carried over, not discarded, so the retained remainder can be one
fixed timestep or more; whenever the loop stopped short of the 3-step cap,
the retained remainder is smaller than one fixed timestep. -/
theorem physics_update_accumulator (accumulator deltaTime : ℚ) :
    (Phys.update accumulator deltaTime).1 =
      accumulator + deltaTime - Phys.timeStep * (Phys.update accumulator deltaTime).2 ∧
    ((Phys.update accumulator deltaTime).2 = Phys.maxSteps ∨
      (Phys.update accumulator deltaTime).1 < Phys.timeStep) :=
  Phys.stepLoop_acc Phys.maxSteps (accumulator + deltaTime)

/-! ## Vector lemmas -/

theorem Vec3.lengthSq_nonneg (v : Vec3) : 0 ≤ Vec3.lengthSq v := by
  unfold Vec3.lengthSq
  nlinarith [mul_self_nonneg v.x, mul_self_nonneg v.y, mul_self_nonneg v.z]

theorem Vec3.length_eq_zero_iff (v : Vec3) : Vec3.length v = 0 ↔ v = ⟨0, 0, 0⟩ := by
  obtain ⟨x, y, z⟩ := v
  simp only [Vec3.length, Vec3.lengthSq, Vec3.mk.injEq]
  rw [Real.sqrt_eq_zero']
  constructor
  · intro h
    have hx : x * x = 0 := le_antisymm (by nlinarith [mul_self_nonneg y, mul_self_nonneg z])
      (mul_self_nonneg x)
    have hy : y * y = 0 := le_antisymm (by nlinarith [mul_self_nonneg x, mul_self_nonneg z])
      (mul_self_nonneg y)
    have hz : z * z = 0 := le_antisymm (by nlinarith [mul_self_nonneg x, mul_self_nonneg y])
      (mul_self_nonneg z)
    exact ⟨mul_self_eq_zero.mp hx, mul_self_eq_zero.mp hy, mul_self_eq_zero.mp hz⟩
  · rintro ⟨rfl, rfl, rfl⟩
    norm_num

theorem Vec3.length_zero : Vec3.length ⟨0, 0, 0⟩ = 0 :=
  (Vec3.length_eq_zero_iff _).mpr rfl

theorem Vec3.normalize_zero : Vec3.normalize ⟨0, 0, 0⟩ = ⟨0, 0, 0⟩ := by
  simp only [Vec3.normalize, Vec3.length_zero]
  norm_num

theorem Vec3.length_normalize (v : Vec3) (h : v ≠ (⟨0, 0, 0⟩ : Vec3)) :
    Vec3.length (Vec3.normalize v) = 1 := by
  have hl0 : Vec3.length v ≠ 0 := fun hc => h ((Vec3.length_eq_zero_iff v).mp hc)
  have hmul : Vec3.length v * Vec3.length v = Vec3.lengthSq v :=
    Real.mul_self_sqrt (Vec3.lengthSq_nonneg v)
  have hnorm : Vec3.normalize v =
      ⟨v.x / Vec3.length v, v.y / Vec3.length v, v.z / Vec3.length v⟩ := by
    simp only [Vec3.normalize]
    rw [if_neg hl0]
  have hcomp :
      Vec3.lengthSq ⟨v.x / Vec3.length v, v.y / Vec3.length v, v.z / Vec3.length v⟩ = 1 := by
    simp only [Vec3.lengthSq] at hmul ⊢
    field_simp
    linarith [hmul]
  rw [hnorm, Vec3.length, hcomp, Real.sqrt_one]

/-! ## Seagull helper lemmas -/

theorem Seagull.hit_isHit (s : Seagull.State) : (Seagull.hit s).isHit = true := by
  unfold Seagull.hit
  split
  · assumption
  · rfl

theorem Seagull.hit_of_isHit (s : Seagull.State) (h : s.isHit = true) :
    Seagull.hit s = s := by
  unfold Seagull.hit
  simp [h]

theorem Seagull.hit_iterate (s : Seagull.State) (n : ℕ) (hn : 1 ≤ n) :
    Seagull.hit^[n] s = Seagull.hit s := by
  obtain ⟨m, rfl⟩ : ∃ m, n = m + 1 := ⟨n - 1, by omega⟩
  clear hn
  induction m with
  | zero => simp
  | succ k ih =>
    rw [Function.iterate_succ_apply', ih]
    exact Seagull.hit_of_isHit _ (Seagull.hit_isHit s)

theorem Seagull.update_inScene (path : ℝ → Vec3) (delta : ℝ) (s : Seagull.State) :
    (Seagull.update path delta s).inScene = s.inScene := by
  simp only [Seagull.update]
  split
  · rfl
  · split <;> rfl

theorem Seagull.update_progress (path : ℝ → Vec3) (delta : ℝ) (s : Seagull.State)
    (hm : s.modelPresent = true) (hl : s.modelLoaded = true) :
    (Seagull.update path delta s).progress = Seagull.newProgress delta s := by
  simp only [Seagull.update]
  rw [if_neg (by simp [hm, hl])]
  split <;> rfl

theorem Seagull.update_rotation_eq (path : ℝ → Vec3) (delta : ℝ) (s : Seagull.State)
    (hm : s.modelPresent = true) (hl : s.modelLoaded = true) :
    (Seagull.update path delta s).rotation =
      if 1 / 1000 < Vec3.length (Vec3.normalize (Seagull.aheadDisplacement path delta s))
      then Seagull.orientationFor (Vec3.normalize (Seagull.aheadDisplacement path delta s))
      else s.rotation := by
  simp only [Seagull.update]
  rw [if_neg (by simp [hm, hl])]
  split <;> rfl

/-! ## Claim C1 -/

/-- Claim C1: `Seagull.hit()` transitions the seagull to the hit state
exactly once — any second or later `hit()` call on an already-hit seagull
is a silent no-op, so across any sequence of `hit()` calls the onHit
callback is invoked at most once, the scene detach happens at most once,
and the resource release happens at most once (indeed exactly once). -/
theorem seagull_hit_exactly_once (s : Seagull.State)
    (h0 : s.isHit = false) (h1 : s.callbackRuns = 0)
    (h2 : s.detachments = 0) (h3 : s.disposals = 0)
    (n : ℕ) (hn : 1 ≤ n) :
    Seagull.hit^[n] s = Seagull.hit s ∧
    (Seagull.hit^[n] s).callbackRuns ≤ 1 ∧
    (Seagull.hit^[n] s).detachments ≤ 1 ∧
    (Seagull.hit^[n] s).disposals = 1 := by
  have hiter := Seagull.hit_iterate s n hn
  refine ⟨hiter, ?_, ?_, ?_⟩ <;> rw [hiter] <;> unfold Seagull.hit <;>
    rw [if_neg (by simp [h0])]
  · show s.callbackRuns + (if s.hasCallback then 1 else 0) ≤ 1
    rw [h1]
    split <;> norm_num
  · show s.detachments + (if s.inScene then 1 else 0) ≤ 1
    rw [h2]
    split <;> norm_num
  · show s.disposals + 1 = 1
    rw [h3]

/-- Witness for C1 at a concrete freshly constructed seagull and two
consecutive `hit()` calls. -/
theorem seagull_hit_exactly_once_witness :
    ((⟨true, true, true, ⟨0, 0, 0⟩, ⟨0, 0, 0⟩, 0, 3 / 100, false, true, 0, 0, 0⟩ :
        Seagull.State).isHit = false) ∧ (1 ≤ 2) ∧
    (Seagull.hit^[2] (⟨true, true, true, ⟨0, 0, 0⟩, ⟨0, 0, 0⟩, 0, 3 / 100, false, true,
          0, 0, 0⟩ : Seagull.State) =
        Seagull.hit ⟨true, true, true, ⟨0, 0, 0⟩, ⟨0, 0, 0⟩, 0, 3 / 100, false, true, 0, 0, 0⟩ ∧
      (Seagull.hit^[2] (⟨true, true, true, ⟨0, 0, 0⟩, ⟨0, 0, 0⟩, 0, 3 / 100, false, true,
          0, 0, 0⟩ : Seagull.State)).callbackRuns ≤ 1 ∧
      (Seagull.hit^[2] (⟨true, true, true, ⟨0, 0, 0⟩, ⟨0, 0, 0⟩, 0, 3 / 100, false, true,
          0, 0, 0⟩ : Seagull.State)).detachments ≤ 1 ∧
      (Seagull.hit^[2] (⟨true, true, true, ⟨0, 0, 0⟩, ⟨0, 0, 0⟩, 0, 3 / 100, false, true,
          0, 0, 0⟩ : Seagull.State)).disposals = 1) :=
  ⟨rfl, by norm_num, seagull_hit_exactly_once _ rfl rfl rfl rfl 2 (by norm_num)⟩

/-! ## Claim C2 -/

/-- Counterexample to claim C2: `Seagull.update()` contains no `isHit`
guard, so after `hit()` it is not a no-op — on a concrete post-hit seagull
(speed `3/100`, constant path) a single `update` with `delta = 1` advances
the path progress from `0` to `3/100`. -/
theorem seagull_update_after_hit_changes_progress :
    (Seagull.update (fun _ => ⟨0, 0, 0⟩) 1
        (Seagull.hit ⟨true, true, true, ⟨0, 0, 0⟩, ⟨0, 0, 0⟩, 0, 3 / 100, false, true,
          0, 0, 0⟩)).progress = 3 / 100 ∧
    (Seagull.hit (⟨true, true, true, ⟨0, 0, 0⟩, ⟨0, 0, 0⟩, 0, 3 / 100, false, true,
        0, 0, 0⟩ : Seagull.State)).progress = 0 ∧
    (3 : ℝ) / 100 ≠ 0 := by
  refine ⟨?_, by simp [Seagull.hit], by norm_num⟩
  rw [Seagull.update_progress _ _ _ (by simp [Seagull.hit]) (by simp [Seagull.hit])]
  simp only [Seagull.newProgress, Seagull.hit]
  norm_num

/-- Claim C2, amended: once `hit()` has run on a not-yet-hit seagull its
visual is absent from the scene and stays absent across `update()` calls,
but subsequent `update()` calls are NOT no-ops: they still advance the
path progress (the source `update` has no `isHit` guard). -/
theorem seagull_post_hit_detached_but_updates (path : ℝ → Vec3) (delta : ℝ)
    (s : Seagull.State) (hs : s.isHit = false)
    (hm : s.modelPresent = true) (hl : s.modelLoaded = true)
    (hsd0 : s.speed * delta ≠ 0) (hsd1 : s.speed * delta ≠ 1) :
    (Seagull.hit s).inScene = false ∧
    (Seagull.update path delta (Seagull.hit s)).inScene = false ∧
    (Seagull.update path delta (Seagull.hit s)).progress ≠ (Seagull.hit s).progress := by
  have hinS : (Seagull.hit s).inScene = false := by
    unfold Seagull.hit
    rw [if_neg (by simp [hs])]
  have hm' : (Seagull.hit s).modelPresent = true := by
    unfold Seagull.hit
    rw [if_neg (by simp [hs])]
    exact hm
  have hl' : (Seagull.hit s).modelLoaded = true := by
    unfold Seagull.hit
    rw [if_neg (by simp [hs])]
    exact hl
  have hp : (Seagull.hit s).progress = s.progress := by
    unfold Seagull.hit
    rw [if_neg (by simp [hs])]
  have hv : (Seagull.hit s).speed = s.speed := by
    unfold Seagull.hit
    rw [if_neg (by simp [hs])]
  refine ⟨hinS, by rw [Seagull.update_inScene, hinS], ?_⟩
  rw [Seagull.update_progress _ _ _ hm' hl']
  simp only [Seagull.newProgress, hp, hv]
  split
  · intro hc
    exact hsd1 (by linarith)
  · intro hc
    exact hsd0 (by linarith)

/-- Witness for the amended C2 at a concrete seagull, constant path and
`delta = 1`. -/
theorem seagull_post_hit_detached_but_updates_witness :
    ((⟨true, true, true, ⟨0, 0, 0⟩, ⟨0, 0, 0⟩, 0, 3 / 100, false, true, 0, 0, 0⟩ :
        Seagull.State).isHit = false) ∧
    ((⟨true, true, true, ⟨0, 0, 0⟩, ⟨0, 0, 0⟩, 0, 3 / 100, false, true, 0, 0, 0⟩ :
        Seagull.State).speed * 1 ≠ 0) ∧
    ((Seagull.hit (⟨true, true, true, ⟨0, 0, 0⟩, ⟨0, 0, 0⟩, 0, 3 / 100, false, true,
          0, 0, 0⟩ : Seagull.State)).inScene = false ∧
      (Seagull.update (fun _ => ⟨0, 0, 0⟩) 1
          (Seagull.hit ⟨true, true, true, ⟨0, 0, 0⟩, ⟨0, 0, 0⟩, 0, 3 / 100, false, true,
            0, 0, 0⟩)).inScene = false ∧
      (Seagull.update (fun _ => ⟨0, 0, 0⟩) 1
          (Seagull.hit ⟨true, true, true, ⟨0, 0, 0⟩, ⟨0, 0, 0⟩, 0, 3 / 100, false, true,
            0, 0, 0⟩)).progress ≠
        (Seagull.hit (⟨true, true, true, ⟨0, 0, 0⟩, ⟨0, 0, 0⟩, 0, 3 / 100, false, true,
            0, 0, 0⟩ : Seagull.State)).progress) :=
  ⟨rfl, by norm_num,
    seagull_post_hit_detached_but_updates _ 1 _ rfl rfl rfl (by norm_num) (by norm_num)⟩

/-! ## Claim C9 -/

/-- Counterexample to claim C9: the source normalizes the direction BEFORE
the `length() > 0.001` guard, so a nonzero displacement of magnitude
`1/10000` — below the epsilon — does NOT skip the orientation update: the
normalized direction has length 1 and the rotation changes this tick. -/
theorem seagull_small_displacement_still_rotates :
    Vec3.length (Seagull.aheadDisplacement
        (fun t => if t = 1 / 20 then (⟨1 / 10000, 0, 0⟩ : Vec3) else ⟨0, 0, 0⟩) 0
        ⟨true, true, true, ⟨0, 0, 0⟩, ⟨0, 0, 0⟩, 0, 3 / 100, false, true, 0, 0, 0⟩) <
      1 / 1000 ∧
    (Seagull.update
        (fun t => if t = 1 / 20 then (⟨1 / 10000, 0, 0⟩ : Vec3) else ⟨0, 0, 0⟩) 0
        ⟨true, true, true, ⟨0, 0, 0⟩, ⟨0, 0, 0⟩, 0, 3 / 100, false, true, 0, 0, 0⟩).rotation ≠
      (⟨true, true, true, ⟨0, 0, 0⟩, ⟨0, 0, 0⟩, 0, 3 / 100, false, true, 0, 0, 0⟩ :
        Seagull.State).rotation := by
  have hnp : Seagull.newProgress 0
      (⟨true, true, true, ⟨0, 0, 0⟩, ⟨0, 0, 0⟩, 0, 3 / 100, false, true, 0, 0, 0⟩ :
        Seagull.State) = 0 := by
    simp only [Seagull.newProgress]
    norm_num
  have hfloor : ⌊(0 + 1 / 20 : ℝ)⌋ = 0 := by
    rw [Int.floor_eq_zero_iff]
    constructor <;> norm_num
  have hmod : Seagull.jsMod1 (0 + Seagull.lookAheadValue) = 1 / 20 := by
    simp only [Seagull.jsMod1, Seagull.lookAheadValue]
    rw [if_pos (by norm_num), hfloor]
    norm_num
  have e1 : (fun t : ℝ => if t = 1 / 20 then (⟨1 / 10000, 0, 0⟩ : Vec3) else ⟨0, 0, 0⟩)
      (1 / 20) = ⟨1 / 10000, 0, 0⟩ := by
    simp
  have e2 : (fun t : ℝ => if t = 1 / 20 then (⟨1 / 10000, 0, 0⟩ : Vec3) else ⟨0, 0, 0⟩)
      0 = ⟨0, 0, 0⟩ := by
    norm_num
  have hdisp : Seagull.aheadDisplacement
      (fun t => if t = 1 / 20 then (⟨1 / 10000, 0, 0⟩ : Vec3) else ⟨0, 0, 0⟩) 0
      ⟨true, true, true, ⟨0, 0, 0⟩, ⟨0, 0, 0⟩, 0, 3 / 100, false, true, 0, 0, 0⟩ =
      ⟨1 / 10000, 0, 0⟩ := by
    unfold Seagull.aheadDisplacement
    rw [hnp, hmod, e1, e2]
    simp only [Vec3.sub]
    norm_num
  have hlen : Vec3.length (⟨1 / 10000, 0, 0⟩ : Vec3) = 1 / 10000 := by
    unfold Vec3.length Vec3.lengthSq
    rw [show (1 / 10000 : ℝ) * (1 / 10000) + 0 * 0 + 0 * 0 = (1 / 10000) ^ 2 by ring]
    rw [Real.sqrt_sq (by norm_num)]
  have hnorm : Vec3.normalize (⟨1 / 10000, 0, 0⟩ : Vec3) = ⟨1, 0, 0⟩ := by
    simp only [Vec3.normalize, hlen]
    rw [if_neg (by norm_num)]
    simp only [Vec3.mk.injEq]
    norm_num
  have hlen1 : Vec3.length (⟨1, 0, 0⟩ : Vec3) = 1 := by
    unfold Vec3.length Vec3.lengthSq
    rw [show (1 : ℝ) * 1 + 0 * 0 + 0 * 0 = 1 by ring, Real.sqrt_one]
  constructor
  · rw [hdisp, hlen]
    norm_num
  · rw [Seagull.update_rotation_eq _ _ _ rfl rfl, hdisp, hnorm, hlen1,
      if_pos (by norm_num)]
    intro hc
    have hz := congrArg Seagull.Euler.z hc
    simp only [Seagull.orientationFor] at hz
    norm_num at hz

/-- Claim C9, amended: the orientation-update guard tests the *normalized*
direction, whose length is 1 for any nonzero displacement and 0 for the
zero displacement; hence the orientation update is skipped — rotation left
unchanged that tick — exactly when the displacement between the current
and look-ahead samples is exactly zero, and for every nonzero displacement
(however small) the rotation is set from the normalized direction. -/
theorem seagull_orientation_guard (path : ℝ → Vec3) (delta : ℝ) (s : Seagull.State)
    (hm : s.modelPresent = true) (hl : s.modelLoaded = true) :
    (Seagull.aheadDisplacement path delta s = ⟨0, 0, 0⟩ →
        (Seagull.update path delta s).rotation = s.rotation) ∧
    (Seagull.aheadDisplacement path delta s ≠ ⟨0, 0, 0⟩ →
        (Seagull.update path delta s).rotation =
          Seagull.orientationFor (Vec3.normalize (Seagull.aheadDisplacement path delta s))) := by
  rw [Seagull.update_rotation_eq path delta s hm hl]
  constructor
  · intro h
    rw [h, Vec3.normalize_zero, Vec3.length_zero, if_neg (by norm_num)]
  · intro h
    rw [Vec3.length_normalize _ h, if_pos (by norm_num)]

/-- Witness for the amended C9 at a concrete seagull and constant path
(zero displacement: rotation unchanged). -/
theorem seagull_orientation_guard_witness :
    ((⟨true, true, true, ⟨0, 0, 0⟩, ⟨0, 0, 0⟩, 0, 3 / 100, false, true, 0, 0, 0⟩ :
        Seagull.State).modelPresent = true) ∧
    ((⟨true, true, true, ⟨0, 0, 0⟩, ⟨0, 0, 0⟩, 0, 3 / 100, false, true, 0, 0, 0⟩ :
        Seagull.State).modelLoaded = true) ∧
    ((Seagull.aheadDisplacement (fun _ => ⟨0, 0, 0⟩) 0
          (⟨true, true, true, ⟨0, 0, 0⟩, ⟨0, 0, 0⟩, 0, 3 / 100, false, true, 0, 0, 0⟩ :
            Seagull.State) = ⟨0, 0, 0⟩ →
        (Seagull.update (fun _ => ⟨0, 0, 0⟩) 0
            ⟨true, true, true, ⟨0, 0, 0⟩, ⟨0, 0, 0⟩, 0, 3 / 100, false, true, 0, 0, 0⟩).rotation =
          (⟨true, true, true, ⟨0, 0, 0⟩, ⟨0, 0, 0⟩, 0, 3 / 100, false, true, 0, 0, 0⟩ :
            Seagull.State).rotation) ∧
      (Seagull.aheadDisplacement (fun _ => ⟨0, 0, 0⟩) 0
          (⟨true, true, true, ⟨0, 0, 0⟩, ⟨0, 0, 0⟩, 0, 3 / 100, false, true, 0, 0, 0⟩ :
            Seagull.State) ≠ ⟨0, 0, 0⟩ →
        (Seagull.update (fun _ => ⟨0, 0, 0⟩) 0
            ⟨true, true, true, ⟨0, 0, 0⟩, ⟨0, 0, 0⟩, 0, 3 / 100, false, true, 0, 0, 0⟩).rotation =
          Seagull.orientationFor (Vec3.normalize (Seagull.aheadDisplacement
            (fun _ => ⟨0, 0, 0⟩) 0
            ⟨true, true, true, ⟨0, 0, 0⟩, ⟨0, 0, 0⟩, 0, 3 / 100, false, true, 0, 0, 0⟩)))) :=
  ⟨rfl, rfl, seagull_orientation_guard _ 0 _ rfl rfl⟩

/-! ## Claim C7 -/

/-- Claim C7: in the raycast hit-resolution path, when the nearest
intersection is within the distance travelled this tick, is not a seagull,
and carries a face normal, the new velocity is the old velocity reflected
about the world-space normal scaled by the bounce factor 0.6, and the ball
is repositioned at the impact point offset 0.2 along the normal, with the
normal integration (movement, gravity, floor bounce, squelch) skipped this
tick. -/
theorem ball_bounce_reflection (delta : ℝ) (b : Controls.BallM) (h : Controls.RayHit)
    (n : Vec3) (hn : h.faceNormal = some n)
    (hd : h.distance < Vec3.length b.velocity * delta)
    (hs : h.objectIsSeagull = false) :
    Controls.ballTick delta (some h) b =
      Controls.TickResult.moved
        { position := Vec3.add h.point
            (Vec3.smul (1 / 5) (Controls.applyQuaternion h.objectQuaternion n))
          velocity := Vec3.smul Controls.bounceFactor
            (Vec3.reflect b.velocity (Controls.applyQuaternion h.objectQuaternion n)) } := by
  simp only [Controls.ballTick]
  rw [if_pos hd, if_neg (by simp [hs]), hn]

/-- Witness for C7: incoming velocity `(0, -1, 0)` against world normal
`(0, 1, 0)` (identity object quaternion) bounces to `(0, 3/5, 0)`, i.e.
`(0, 0.6, 0)`. -/
theorem ball_bounce_reflection_witness :
    ((⟨1 / 2, ⟨0, 9, 0⟩, some ⟨0, 1, 0⟩, ⟨0, 0, 0, 1⟩, false⟩ : Controls.RayHit).distance <
      Vec3.length (⟨⟨0, 10, 0⟩, ⟨0, -1, 0⟩⟩ : Controls.BallM).velocity * 1) ∧
    Controls.ballTick 1 (some ⟨1 / 2, ⟨0, 9, 0⟩, some ⟨0, 1, 0⟩, ⟨0, 0, 0, 1⟩, false⟩)
        ⟨⟨0, 10, 0⟩, ⟨0, -1, 0⟩⟩ =
      Controls.TickResult.moved
        { position := Vec3.add ⟨0, 9, 0⟩
            (Vec3.smul (1 / 5) (Controls.applyQuaternion ⟨0, 0, 0, 1⟩ ⟨0, 1, 0⟩))
          velocity := Vec3.smul Controls.bounceFactor
            (Vec3.reflect ⟨0, -1, 0⟩ (Controls.applyQuaternion ⟨0, 0, 0, 1⟩ ⟨0, 1, 0⟩)) } ∧
    Vec3.smul Controls.bounceFactor
        (Vec3.reflect ⟨0, -1, 0⟩ (Controls.applyQuaternion ⟨0, 0, 0, 1⟩ ⟨0, 1, 0⟩)) =
      ⟨0, 3 / 5, 0⟩ := by
  have hlen : Vec3.length (⟨0, -1, 0⟩ : Vec3) = 1 := by
    unfold Vec3.length Vec3.lengthSq
    rw [show (0 : ℝ) * 0 + (-1) * (-1) + 0 * 0 = 1 by ring, Real.sqrt_one]
  have hd : ((⟨1 / 2, ⟨0, 9, 0⟩, some ⟨0, 1, 0⟩, ⟨0, 0, 0, 1⟩, false⟩ :
      Controls.RayHit).distance <
      Vec3.length (⟨⟨0, 10, 0⟩, ⟨0, -1, 0⟩⟩ : Controls.BallM).velocity * 1) := by
    show (1 / 2 : ℝ) < Vec3.length ⟨0, -1, 0⟩ * 1
    rw [hlen]
    norm_num
  refine ⟨hd, ball_bounce_reflection 1 _ _ _ rfl hd rfl, ?_⟩
  simp only [Controls.bounceFactor, Vec3.smul, Vec3.reflect, Vec3.sub, Vec3.dot,
    Controls.applyQuaternion, Vec3.mk.injEq]
  norm_num

/-! ## Claims C6 and C10 -/

/-- Claim C6: for a non-disposed physics-backed `Ball` with lifetime
5000 ms created at `creationTime`, `update()` reports it alive exactly when
`now - creationTime < 5000`; and once `update()` reports it dead, the
ball-cleanup loop of `ExampleScene.update` removes its mesh from the
scene, removes its body from the physics world, disposes it exactly once
(dispose count goes from its current value to +1), and drops it from the
tracking list, so no later pass touches it again. -/
theorem Scene.cullStep_cons (now : ℤ) (b : Ball.State) (rest : List Ball.State) :
    Scene.cullStep now (b :: rest) =
      if (Ball.update now b).1 then
        ((Ball.update now b).2 :: (Scene.cullStep now rest).1, (Scene.cullStep now rest).2)
      else
        ((Scene.cullStep now rest).1,
          Ball.dispose { (Ball.update now b).2 with meshInScene := false, bodyInWorld := false } ::
            (Scene.cullStep now rest).2) :=
  rfl

theorem ball_lifetime_and_cull (now : ℤ) (b : Ball.State) (h : b.disposed = false) :
    ((Ball.update now b).1 = true ↔ now - b.creationTime < Ball.lifetime) ∧
    ((Ball.update now b).1 = false →
      (Scene.cullStep now [b]).1 = [] ∧
      ∃ r, (Scene.cullStep now [b]).2 = [r] ∧
        r.meshInScene = false ∧ r.bodyInWorld = false ∧
        r.disposed = true ∧ r.disposeCount = b.disposeCount + 1) := by
  have hupd : Ball.update now b =
      (decide (now - b.creationTime < Ball.lifetime),
        { b with meshPosition := b.bodyPosition, meshQuaternion := b.bodyQuaternion }) := by
    unfold Ball.update
    rw [if_neg (by simp [h])]
  constructor
  · rw [hupd]
    simp
  · intro hdead
    rw [Scene.cullStep_cons, hdead]
    simp only [Bool.false_eq_true, if_false]
    rw [hupd]
    refine ⟨rfl, _, rfl, ?_, ?_, ?_, ?_⟩ <;>
      · unfold Ball.dispose
        rw [if_neg (by simp [h])]

/-- Witness for C6 at a concrete dead ball (created at 0, queried at
6000 ms). -/
theorem ball_lifetime_and_cull_witness :
    ((⟨0, false, ⟨0, 0, 0⟩, ⟨0, 0, 0, 1⟩, ⟨1, 2, 3⟩, ⟨0, 0, 0, 1⟩, true, true, true, 0⟩ :
        Ball.State).disposed = false) ∧
    (((Ball.update 6000 (⟨0, false, ⟨0, 0, 0⟩, ⟨0, 0, 0, 1⟩, ⟨1, 2, 3⟩, ⟨0, 0, 0, 1⟩,
          true, true, true, 0⟩ : Ball.State)).1 = true ↔
        (6000 : ℤ) - (⟨0, false, ⟨0, 0, 0⟩, ⟨0, 0, 0, 1⟩, ⟨1, 2, 3⟩, ⟨0, 0, 0, 1⟩,
          true, true, true, 0⟩ : Ball.State).creationTime < Ball.lifetime) ∧
      ((Ball.update 6000 (⟨0, false, ⟨0, 0, 0⟩, ⟨0, 0, 0, 1⟩, ⟨1, 2, 3⟩, ⟨0, 0, 0, 1⟩,
          true, true, true, 0⟩ : Ball.State)).1 = false →
        (Scene.cullStep 6000 [⟨0, false, ⟨0, 0, 0⟩, ⟨0, 0, 0, 1⟩, ⟨1, 2, 3⟩, ⟨0, 0, 0, 1⟩,
          true, true, true, 0⟩]).1 = [] ∧
        ∃ r, (Scene.cullStep 6000 [⟨0, false, ⟨0, 0, 0⟩, ⟨0, 0, 0, 1⟩, ⟨1, 2, 3⟩,
            ⟨0, 0, 0, 1⟩, true, true, true, 0⟩]).2 = [r] ∧
          r.meshInScene = false ∧ r.bodyInWorld = false ∧
          r.disposed = true ∧ r.disposeCount =
            (⟨0, false, ⟨0, 0, 0⟩, ⟨0, 0, 0, 1⟩, ⟨1, 2, 3⟩, ⟨0, 0, 0, 1⟩,
              true, true, true, 0⟩ : Ball.State).disposeCount + 1)) :=
  ⟨rfl, ball_lifetime_and_cull 6000 _ rfl⟩

/-- Claim C10: once `dispose()` has run on a `Ball`, every subsequent
`update()` call returns `false` and leaves the state unchanged — even when
`now - creationTime` is still within the 5000 ms lifetime — and a second
`dispose()` call is a no-op. -/
theorem ball_disposed_noop (now : ℤ) (b : Ball.State) (h : b.disposed = true) :
    Ball.update now b = (false, b) ∧ Ball.dispose b = b := by
  constructor
  · unfold Ball.update
    rw [if_pos (by simp [h])]
  · unfold Ball.dispose
    rw [if_pos (by simp [h])]

/-- Witness for C10 at a concrete disposed ball still within its lifetime
(`now = 100`, created at `0`, `100 - 0 < 5000`). -/
theorem ball_disposed_noop_witness :
    ((⟨0, true, ⟨0, 0, 0⟩, ⟨0, 0, 0, 1⟩, ⟨1, 2, 3⟩, ⟨0, 0, 0, 1⟩, false, false, false, 1⟩ :
        Ball.State).disposed = true) ∧
    ((100 : ℤ) - (⟨0, true, ⟨0, 0, 0⟩, ⟨0, 0, 0, 1⟩, ⟨1, 2, 3⟩, ⟨0, 0, 0, 1⟩,
        false, false, false, 1⟩ : Ball.State).creationTime < Ball.lifetime) ∧
    (Ball.update 100 (⟨0, true, ⟨0, 0, 0⟩, ⟨0, 0, 0, 1⟩, ⟨1, 2, 3⟩, ⟨0, 0, 0, 1⟩,
        false, false, false, 1⟩ : Ball.State) =
      (false, ⟨0, true, ⟨0, 0, 0⟩, ⟨0, 0, 0, 1⟩, ⟨1, 2, 3⟩, ⟨0, 0, 0, 1⟩,
        false, false, false, 1⟩) ∧
      Ball.dispose (⟨0, true, ⟨0, 0, 0⟩, ⟨0, 0, 0, 1⟩, ⟨1, 2, 3⟩, ⟨0, 0, 0, 1⟩,
        false, false, false, 1⟩ : Ball.State) =
        ⟨0, true, ⟨0, 0, 0⟩, ⟨0, 0, 0, 1⟩, ⟨1, 2, 3⟩, ⟨0, 0, 0, 1⟩, false, false, false, 1⟩) :=
  ⟨rfl, by decide, ball_disposed_noop 100 _ rfl⟩

/-! ## Claim C3 -/

theorem Game.notifyHit_invariant (i : Fin 5) (g : Game.State)
    (hrem : g.remainingSeagulls = 5 - (Game.hitCount g : ℤ))
    (hwin : g.winShowCount = if Game.hitCount g = 5 then 1 else 0) :
    (Game.notifyHit i g).remainingSeagulls = 5 - (Game.hitCount (Game.notifyHit i g) : ℤ) ∧
    (Game.notifyHit i g).winShowCount =
      if Game.hitCount (Game.notifyHit i g) = 5 then 1 else 0 := by
  unfold Game.notifyHit
  split
  · exact ⟨hrem, hwin⟩
  · rename_i hflag
    have hset : (Finset.univ.filter fun j => Function.update g.hitFlags i true j = true) =
        insert i (Finset.univ.filter fun j => g.hitFlags j = true) := by
      ext j
      by_cases hj : j = i
      · subst hj
        simp
      · simp [Function.update_noteq hj, hj]
    have hnotmem : i ∉ Finset.univ.filter fun j => g.hitFlags j = true := by
      simp only [Finset.mem_filter]
      rintro ⟨-, hc⟩
      exact hflag hc
    have hcnt : (Finset.univ.filter fun j => Function.update g.hitFlags i true j = true).card =
        Game.hitCount g + 1 := by
      rw [hset, Finset.card_insert_of_not_mem hnotmem]
      rfl
    have hle4 : Game.hitCount g ≤ 4 := by
      have hsub : (Finset.univ.filter fun j => g.hitFlags j = true) ⊆ Finset.univ.erase i := by
        intro j hjmem
        rcases Finset.mem_filter.mp hjmem with ⟨-, hj⟩
        refine Finset.mem_erase.mpr ⟨?_, Finset.mem_univ j⟩
        rintro rfl
        exact hflag hj
      have hcard := Finset.card_le_card hsub
      rw [Finset.card_erase_of_mem (Finset.mem_univ i)] at hcard
      simpa [Game.hitCount, Finset.card_univ] using hcard
    unfold Game.handleSeagullHit Game.hitCount
    simp only
    rw [hcnt, hrem, hwin]
    constructor
    · push_cast
      ring
    · split_ifs <;> omega

theorem Game.processHits_spec (events : List (Fin 5)) (g : Game.State)
    (hrem : g.remainingSeagulls = 5 - (Game.hitCount g : ℤ))
    (hwin : g.winShowCount = if Game.hitCount g = 5 then 1 else 0) :
    (Game.processHits events g).remainingSeagulls =
      5 - (Game.hitCount (Game.processHits events g) : ℤ) ∧
    (Game.processHits events g).winShowCount =
      if Game.hitCount (Game.processHits events g) = 5 then 1 else 0 := by
  induction events generalizing g with
  | nil => exact ⟨hrem, hwin⟩
  | cons e es ih =>
    have hstep := Game.notifyHit_invariant e g hrem hwin
    exact ih (Game.notifyHit e g) hstep.1 hstep.2

/-- Claim C3: with the actor count configured to 5, after any sequence of
seagull hit notifications (each seagull's `isHit` guard makes only the
first notification per seagull reach the scene callback), the win screen
has been shown exactly once if the number of distinct seagulls hit has
reached 5, and has not been shown at all while that number is 4 or fewer;
the remaining-seagulls counter equals 5 minus the distinct hit count. -/
theorem win_fires_iff_five_distinct_hits (events : List (Fin 5)) :
    (Game.processHits events Game.init).winShowCount =
      (if Game.hitCount (Game.processHits events Game.init) = 5 then 1 else 0) ∧
    (Game.processHits events Game.init).remainingSeagulls =
      5 - (Game.hitCount (Game.processHits events Game.init) : ℤ) := by
  have hrem : Game.init.remainingSeagulls = 5 - (Game.hitCount Game.init : ℤ) := by
    simp [Game.init, Game.hitCount, Game.numSeagulls]
  have hwin : Game.init.winShowCount = if Game.hitCount Game.init = 5 then 1 else 0 := by
    simp [Game.init, Game.hitCount]
  have h := Game.processHits_spec events Game.init hrem hwin
  exact ⟨h.2, h.1⟩

/-! ## Claim C8 -/

/-- Counterexample to claim C8: `createRandomPath` draws each control
point's `y` as `min.y + 5 + rand * 15`, which is NOT confined to the given
bounds for every `setBounds` argument: with bounds `(0,0,0)`–`(10,10,10)`
and every random draw `9/10` (a legal `Math.random()` value), the
generated control points have `y = 37/2 > 10`, so not every control point
— and hence not every sample of the interpolating closed curve, which
passes through its control points — lies within the bounds. -/
theorem flight_path_point_out_of_bounds :
    ((0 : ℚ) ≤ 9 / 10 ∧ (9 / 10 : ℚ) < 1) ∧
    (⟨9, 37 / 2, 9⟩ : Flight.P3) ∈
      (Flight.createRandomPath ⟨⟨0, 0, 0⟩, ⟨10, 10, 10⟩⟩ fun _ => 9 / 10).points ∧
    Flight.inBounds ⟨⟨0, 0, 0⟩, ⟨10, 10, 10⟩⟩ ⟨9, 37 / 2, 9⟩ = false := by
  refine ⟨by norm_num, ?_, ?_⟩
  · simp only [Flight.createRandomPath, List.mem_map, List.mem_range]
    refine ⟨0, by omega, ?_⟩
    simp only [Flight.P3.mk.injEq]
    norm_num
  · simp only [Flight.inBounds, decide_eq_false_iff_not]
    intro hc
    rcases hc with ⟨-, -, -, hy, -⟩
    norm_num at hy

/-- Claim C8, amended: every flight path created by `createRandomPath`
(at construction or on `setBounds`) has between 5 and 7 control points and
is interpolated as a closed looping curve; each control point's x and z
lie within the bounds and its y lies in `[min.y + 5, min.y + 20)`, so
whenever `min.y + 20 ≤ max.y` — as holds for the construction-default
bounds and for the bounds the scene passes to `setBounds` — every control
point lies within the axis-aligned bounds. -/
theorem flight_path_points_in_bounds (bounds : Flight.Bounds) (rand : ℕ → ℚ)
    (hr : ∀ k, 0 ≤ rand k ∧ rand k < 1)
    (hx : bounds.min.x ≤ bounds.max.x) (hz : bounds.min.z ≤ bounds.max.z)
    (hy : bounds.min.y + 20 ≤ bounds.max.y) :
    5 ≤ (Flight.createRandomPath bounds rand).points.length ∧
    (Flight.createRandomPath bounds rand).points.length ≤ 7 ∧
    (Flight.createRandomPath bounds rand).closed = true ∧
    ∀ p ∈ (Flight.createRandomPath bounds rand).points,
      Flight.inBounds bounds p = true := by
  obtain ⟨hr0, hr1⟩ := hr 0
  have hfl : ⌊rand 0 * 3⌋ < 3 := by
    rw [Int.floor_lt]
    push_cast
    linarith
  have hfl0 : 0 ≤ ⌊rand 0 * 3⌋ := by
    apply Int.floor_nonneg.mpr
    positivity
  have hlen : (Flight.createRandomPath bounds rand).points.length =
      5 + (⌊rand 0 * 3⌋).toNat := by
    simp [Flight.createRandomPath]
  refine ⟨by rw [hlen]; omega, by rw [hlen]; omega, rfl, ?_⟩
  intro p hp
  simp only [Flight.createRandomPath, List.mem_map, List.mem_range] at hp
  obtain ⟨i, -, rfl⟩ := hp
  obtain ⟨hxi0, hxi1⟩ := hr (3 * i + 1)
  obtain ⟨hyi0, hyi1⟩ := hr (3 * i + 2)
  obtain ⟨hzi0, hzi1⟩ := hr (3 * i + 3)
  have hxprod : 0 ≤ (1 - rand (3 * i + 1)) * (bounds.max.x - bounds.min.x) :=
    mul_nonneg (by linarith) (by linarith)
  have hzprod : 0 ≤ (1 - rand (3 * i + 3)) * (bounds.max.z - bounds.min.z) :=
    mul_nonneg (by linarith) (by linarith)
  unfold Flight.inBounds
  simp only [decide_eq_true_eq]
  refine ⟨?_, ?_, ?_, ?_, ?_, ?_⟩
  · nlinarith
  · nlinarith
  · nlinarith
  · nlinarith
  · nlinarith
  · nlinarith

/-- Witness for the amended C8 at the bounds `ExampleScene` passes to
`setBounds` and the constant random stream `1/2`. -/
theorem flight_path_points_in_bounds_witness :
    ((0 : ℚ) ≤ 1 / 2 ∧ (1 / 2 : ℚ) < 1) ∧
    (Flight.sceneBounds.min.x ≤ Flight.sceneBounds.max.x) ∧
    (Flight.sceneBounds.min.y + 20 ≤ Flight.sceneBounds.max.y) ∧
    (5 ≤ (Flight.createRandomPath Flight.sceneBounds fun _ => 1 / 2).points.length ∧
      (Flight.createRandomPath Flight.sceneBounds fun _ => 1 / 2).points.length ≤ 7 ∧
      (Flight.createRandomPath Flight.sceneBounds fun _ => 1 / 2).closed = true ∧
      ∀ p ∈ (Flight.createRandomPath Flight.sceneBounds fun _ => 1 / 2).points,
        Flight.inBounds Flight.sceneBounds p = true) :=
  ⟨by norm_num, by norm_num [Flight.sceneBounds], by norm_num [Flight.sceneBounds],
    flight_path_points_in_bounds Flight.sceneBounds _ (fun _ => by norm_num)
      (by norm_num [Flight.sceneBounds]) (by norm_num [Flight.sceneBounds])
      (by norm_num [Flight.sceneBounds])⟩
